import Mathlib

/-!
Verification development for the Dataverse service client core
(`src/client.rs`).  The client is shallowly embedded: reqwest's request
builder becomes an explicit record of method, url, headers and body; the
transport and the authentication capability become oracle functions; every
operation returns, next to its result, the list of HTTP requests it issued,
so that dispatch-count properties are statable.  Machine strings stay
`String`, header values stay raw byte lists (`List Nat`) because reqwest
header values need not be ASCII.
-/

set_option autoImplicit false

namespace DataverseClient

/-- Modelled from the spec (section 7): the error module `src/error.rs` is not
part of the sources provided, only its callers are.  The taxonomy follows the
spec: AuthenticationError, TransportError, EncodingError, DecodingError,
ServerError carrying a message, ProtocolViolation carrying a message (the
latter also covers the continuation-on-finished-page failure, which the spec
names NoNextPage).  Call sites in `client.rs` pass the message strings that
appear literally in the source. -/
inductive DataverseError where
  | authenticationError (message : String)
  | transportError
  | encodingError
  | decodingError
  | serverError (message : String)
  | protocolViolation (message : String)
  deriving Repr, DecidableEq

/-- The error returned by `retrieve_next_page` on a page without a cursor;
the spec (section 8) calls this failure NoNextPage, the taxonomy of section 7
files it under ProtocolViolation.  The message string is the one in
`client.rs`. -/
def noNextPageError : DataverseError :=
  .protocolViolation "There is no next page to retrieve"

/-- HTTP methods used by `client.rs` (`reqwest::Method`). -/
inductive Method where
  | GET
  | POST
  | PATCH
  | DELETE
  deriving Repr, DecidableEq

/-- A built HTTP request: embedding of `reqwest::RequestBuilder` with the
data the claims are about (method, url, ordered header list, optional
body). -/
structure HttpRequest where
  method : Method
  url : String
  headers : List (String × String)
  body : Option String
  deriving Repr, DecidableEq

/-- `RequestBuilder::header`: appends one header. -/
def HttpRequest.header (r : HttpRequest) (name value : String) : HttpRequest :=
  { r with headers := r.headers ++ [(name, value)] }

/-- `RequestBuilder::bearer_auth`: attaches the bearer authorization
header. -/
def HttpRequest.bearer_auth (r : HttpRequest) (token : String) : HttpRequest :=
  r.header "Authorization" ("Bearer " ++ token)

/-- `RequestBuilder::body`: sets the request body. -/
def HttpRequest.setBody (r : HttpRequest) (b : String) : HttpRequest :=
  { r with body := some b }

/-- An HTTP response (`reqwest::Response`): status code, headers with raw
byte values, and the body; `none` means the body cannot be read (both
`text()` and `bytes()` would fail). -/
structure Response where
  status : Nat
  headers : List (String × List Nat)
  body : Option String
  deriving Repr, DecidableEq

/-- `StatusCode::is_client_error`: 400..=499. -/
def is_client_error (status : Nat) : Bool :=
  decide (400 ≤ status) && decide (status ≤ 499)

/-- `StatusCode::is_server_error`: 500..=599. -/
def is_server_error (status : Nat) : Bool :=
  decide (500 ≤ status) && decide (status ≤ 599)

/-- A header byte that `http::HeaderValue::to_str` accepts: visible ASCII
(32..=126) or horizontal tab. -/
def isVisibleAscii (b : Nat) : Bool :=
  (decide (32 ≤ b) && decide (b < 127)) || decide (b = 9)

/-- `HeaderValue::to_str`: succeeds exactly when every byte is visible
ASCII, yielding the characters of the value. -/
def headerValueToStr (bs : List Nat) : Option (List Char) :=
  if bs.all isVisibleAscii then some (bs.map Char.ofNat) else none

/-- Hexadecimal digit value of a character, for the character class
`[0-9a-fA-F]` of `UUID_REGEX` and for `Uuid::parse_str`. -/
def hexVal (c : Char) : Option Nat :=
  if 48 ≤ c.toNat ∧ c.toNat ≤ 57 then some (c.toNat - 48)
  else if 97 ≤ c.toNat ∧ c.toNat ≤ 102 then some (c.toNat - 87)
  else if 65 ≤ c.toNat ∧ c.toNat ≤ 70 then some (c.toNat - 55)
  else none

/-- Consume exactly `n` hexadecimal digits from the front of `l`, returning
the consumed segment and the rest. -/
def takeHexN : Nat → List Char → Option (List Char × List Char)
  | 0, l => some ([], l)
  | _ + 1, [] => none
  | n + 1, c :: cs =>
    if (hexVal c).isSome then
      match takeHexN n cs with
      | some (s, r) => some (c :: s, r)
      | none => none
    else none

/-- Consume one hyphen. -/
def takeDash : List Char → Option (List Char)
  | '-' :: cs => some cs
  | _ => none

/-- Match of `UUID_REGEX`
(`[0-9a-fA-F]{8}-[0-9a-fA-F]{4}-[0-9a-fA-F]{4}-[0-9a-fA-F]{4}-[0-9a-fA-F]{12}`)
anchored at the start of `l`: 8-4-4-4-12 hexadecimal digit groups separated
by hyphens, returning the 36-character matched segment. -/
def matchUuidAt (l : List Char) : Option (List Char) :=
  match takeHexN 8 l with
  | none => none
  | some (s1, l1) =>
    match takeDash l1 with
    | none => none
    | some l1d =>
      match takeHexN 4 l1d with
      | none => none
      | some (s2, l2) =>
        match takeDash l2 with
        | none => none
        | some l2d =>
          match takeHexN 4 l2d with
          | none => none
          | some (s3, l3) =>
            match takeDash l3 with
            | none => none
            | some l3d =>
              match takeHexN 4 l3d with
              | none => none
              | some (s4, l4) =>
                match takeDash l4 with
                | none => none
                | some l4d =>
                  match takeHexN 12 l4d with
                  | none => none
                  | some (s5, _) =>
                    some (s1 ++ '-' :: (s2 ++ '-' :: (s3 ++ '-' :: (s4 ++ '-' :: s5))))

/-- `UUID_REGEX.find`: leftmost match of the fixed 8-4-4-4-12 pattern, as
the regex crate returns it (positions are tried left to right; the pattern
has fixed shape, so the leftmost matching position decides). -/
def findUuid : List Char → Option (List Char)
  | [] => none
  | c :: cs =>
    match matchUuidAt (c :: cs) with
    | some seg => some seg
    | none => findUuid cs

/-- Fold hexadecimal digits into a numeric value (digits guaranteed
hexadecimal by the caller). -/
def hexListVal (l : List Char) : Nat :=
  l.foldl (fun acc c => 16 * acc + (hexVal c).getD 0) 0

/-- `uuid::Uuid::parse_str` on hyphenated input, the only shape it receives
in `client.rs` (every argument is a 36-character `UUID_REGEX` match): the
whole string must be 8-4-4-4-12 hexadecimal digit groups separated by
hyphens, case-insensitively; the resulting Uuid is its 128-bit value. -/
def uuid_parse_str (l : List Char) : Option Nat :=
  match takeHexN 8 l with
  | none => none
  | some (s1, l1) =>
    match takeDash l1 with
    | none => none
    | some l1d =>
      match takeHexN 4 l1d with
      | none => none
      | some (s2, l2) =>
        match takeDash l2 with
        | none => none
        | some l2d =>
          match takeHexN 4 l2d with
          | none => none
          | some (s3, l3) =>
            match takeDash l3 with
            | none => none
            | some l3d =>
              match takeHexN 4 l3d with
              | none => none
              | some (s4, l4) =>
                match takeDash l4 with
                | none => none
                | some l4d =>
                  match takeHexN 12 l4d with
                  | none => none
                  | some (s5, rest) =>
                    if rest.isEmpty then
                      some (hexListVal (s1 ++ s2 ++ s3 ++ s4 ++ s5))
                    else none

/-- A hexadecimal digit character, lowercase (`uuid` crate rendering). -/
def hexDigitChar (n : Nat) : Char :=
  if n < 10 then Char.ofNat (48 + n) else Char.ofNat (87 + n)

/-- `width` lowercase hexadecimal digits of `n`, most significant first. -/
def toHexPad (n width : Nat) : List Char :=
  (List.range width).reverse.map (fun i => hexDigitChar (n / 16 ^ i % 16))

/-- `Uuid::as_hyphenated`: canonical lowercase hyphenated 8-4-4-4-12
rendering of a Uuid (128-bit value). -/
def as_hyphenated (u : Nat) : String :=
  let d := toHexPad (u % 2 ^ 128) 32
  String.mk (d.take 8 ++ '-' :: ((d.drop 8).take 4 ++ '-' ::
    ((d.drop 12).take 4 ++ '-' :: ((d.drop 16).take 4 ++ '-' :: d.drop 20))))

/-- Microsoft Dataverse Web-API version constant of `client.rs`. -/
def VERSION : String := "9.2"

/-- `Client::build_simple_url`: `format!("{}api/data/v{}/{}", url, VERSION,
table_name)`.  Note the format string inserts no separator between the
client url and `api`. -/
def build_simple_url (client_url table_name : String) : String :=
  client_url ++ "api/data/v" ++ VERSION ++ "/" ++ table_name

/-- `Client::build_targeted_url`:
`format!("{}api/data/v{}/{}({})", url, VERSION, table_name, id.as_hyphenated())`. -/
def build_targeted_url (client_url table_name : String) (target_id : Nat) : String :=
  client_url ++ "api/data/v" ++ VERSION ++ "/" ++ table_name ++ "(" ++
    as_hyphenated target_id ++ ")"

/-- The column-joining loop shared by `build_retrieve_url` and
`build_query_url`: push a comma before every column except the first, then
push the column. -/
def joinLoop : String → Bool → List String → String
  | select, _, [] => select
  | select, comma_required, column :: rest =>
    joinLoop ((if comma_required then select ++ "," else select) ++ column) true rest

/-- The `select` string built by the column loop of `client.rs`, starting
from the empty string with no comma required. -/
def joinColumns (columns : List String) : String :=
  joinLoop "" false columns

/-- `Client::build_retrieve_url`:
`format!("{}api/data/v{}/{}({})?$select={}", ...)` with the joined column
list. -/
def build_retrieve_url (client_url table_name : String) (target_id : Nat)
    (columns : List String) : String :=
  client_url ++ "api/data/v" ++ VERSION ++ "/" ++ table_name ++ "(" ++
    as_hyphenated target_id ++ ")" ++ "?$select=" ++ joinColumns columns

/-- `Client::build_query_url`:
`format!("{}api/data/v{}/{}&$select={}", url, VERSION, query, select)`.
The query collaborator (`query.rs`, external to the provided sources) is
modelled by its `Display` rendering, an opaque string. -/
def build_query_url (client_url : String) (columns : List String)
    (query : String) : String :=
  client_url ++ "api/data/v" ++ VERSION ++ "/" ++ query ++ "&$select=" ++
    joinColumns columns

/-- `ReferenceStruct` (`reference.rs` boundary): collection name and record
id. -/
structure ReferenceStruct where
  entity_name : String
  entity_id : Nat
  deriving Repr, DecidableEq

/-- A `WriteEntity` value as `client.rs` consumes it: its reference and the
outcome of `serde_json::to_vec` on it (`none` = serialization failure, the
encode collaborator being external). -/
structure WriteEntity where
  get_reference : ReferenceStruct
  serialize : Option String

/-- A `ReadEntity` type `E` as `client.rs` consumes it: its declared column
list and the outcomes of `serde_json::from_slice` for `E` itself and for the
`RetrieveMultipleResult<E>` envelope (`value` entities plus optional
`@odata.nextLink`); serde is external, so both deserializers are oracles. -/
structure ReadEntity (E : Type) where
  get_columns : List String
  deserialize : String → Option E
  deserialize_page : String → Option (List E × Option String)

/-- `Page<E>`: entities plus the optional `@odata.nextLink` continuation
cursor. -/
structure Page (E : Type) where
  entities : List E
  next_link : Option String

/-- `Page::new`. -/
def Page.new {E : Type} (entities : List E) (next_link : Option String) : Page E :=
  ⟨entities, next_link⟩

/-- `Page::is_incomplete`: `self.next_link.is_some()`. -/
def Page.is_incomplete {E : Type} (p : Page E) : Bool :=
  p.next_link.isSome

/-- `Batch` (`batch.rs` boundary): its id and its `Display` rendering, both
opaque to `client.rs`. -/
structure Batch where
  get_batch_id : String
  to_string : String

/-- Modelled from the spec (section 3): `MergeRequest` lives in
`src/action.rs`, which is not among the provided sources; the spec gives the
ephemeral DTO `{target, subordinate, entity_name, cascade}`. -/
structure MergeRequest where
  target : Nat
  subordinate : Nat
  entity_name : String
  cascade : Bool
  deriving Repr, DecidableEq

/-- `MergeRequest::new`, with the argument order of the call site in
`client.rs`: `MergeRequest::new(&entity_name, target, subordinate, false)`. -/
def MergeRequest.new (entity_name : String) (target subordinate : Nat)
    (cascade : Bool) : MergeRequest :=
  { target := target, subordinate := subordinate, entity_name := entity_name,
    cascade := cascade }

/-- The fallback failure message used when an error body cannot be read. -/
def fallbackMessage : String := "no error details provided from server"

/-- The `DataverseError::new("Dataverse provided no Uuid")` failure of
`create`, filed under ProtocolViolation by the spec taxonomy. -/
def noUuidError : DataverseError :=
  .protocolViolation "Dataverse provided no Uuid"

/-- `handle_empty_response` of `client.rs`: 4xx/5xx becomes a server error
carrying the body text (`text()` failure swallowed into the fallback
message); everything else is success. -/
def handle_empty_response (response : Response) : Except DataverseError Unit :=
  if is_client_error response.status || is_server_error response.status then
    .error (.serverError (response.body.getD fallbackMessage))
  else
    .ok ()

/-- The local `handle_response` of `Client::create`: after the uniform
4xx/5xx check, read the `OData-EntityId` header (raw bytes turned into a
string by `to_str`, a failure becoming the empty string), scan it with
`UUID_REGEX`, and parse the matched segment; a missing header or missing
match is the `"Dataverse provided no Uuid"` failure. -/
def create_handle_response (response : Response) : Except DataverseError Nat :=
  if is_client_error response.status || is_server_error response.status then
    .error (.serverError (response.body.getD fallbackMessage))
  else
    match response.headers.lookup "OData-EntityId" with
    | none => .error noUuidError
    | some header_value =>
      match findUuid ((headerValueToStr header_value).getD []) with
      | none => .error noUuidError
      | some uuid_segment =>
        match uuid_parse_str uuid_segment with
        | some uuid => .ok uuid
        | none => .error (.protocolViolation "invalid Uuid")

/-- The local `handle_response` of `Client::retrieve`: 4xx/5xx check, then
`bytes()` (a read failure surfacing as a transport error) and
deserialization (a failure surfacing as a decoding error). -/
def retrieve_handle_response {E : Type} (re : ReadEntity E)
    (response : Response) : Except DataverseError E :=
  if is_client_error response.status || is_server_error response.status then
    .error (.serverError (response.body.getD fallbackMessage))
  else
    match response.body with
    | none => .error .transportError
    | some content =>
      match re.deserialize content with
      | some e => .ok e
      | none => .error .decodingError

/-- The identical local `handle_response` functions of
`Client::retrieve_multiple` and `Client::retrieve_next_page`: 4xx/5xx
check, `bytes()`, deserialize the `RetrieveMultipleResult` envelope, wrap it
in a `Page`. -/
def pages_handle_response {E : Type} (re : ReadEntity E)
    (response : Response) : Except DataverseError (Page E) :=
  if is_client_error response.status || is_server_error response.status then
    .error (.serverError (response.body.getD fallbackMessage))
  else
    match response.body with
    | none => .error .transportError
    | some content =>
      match re.deserialize_page content with
      | some (entities, next_link) => .ok (Page.new entities next_link)
      | none => .error .decodingError

/-- `Client::request`, the shared pipeline, instrumented with the list of
HTTP requests actually handed to the transport: obtain a token (a failure
fails the whole call, no request sent), build the request through the
caller-supplied preparer (a failure likewise sends nothing), attach the
bearer authorization and the fixed protocol headers, send once, classify a
transport failure, and hand the response to the consumer. -/
def request {E : Type} (auth : Except DataverseError String)
    (send : HttpRequest → Option Response) (method : Method) (url : String)
    (request_preparer : HttpRequest → Except DataverseError HttpRequest)
    (response_consumer : Response → Except DataverseError E) :
    List HttpRequest × Except DataverseError E :=
  match auth with
  | .error e => ([], .error e)
  | .ok token =>
    match request_preparer
        { method := method, url := url, headers := [], body := none } with
    | .error e => ([], .error e)
    | .ok prepared =>
      let req := (((prepared.bearer_auth token).header "OData-MaxVersion"
        "4.0").header "OData-Version" "4.0").header "Accept" "application/json"
      match send req with
      | none => ([req], .error .transportError)
      | some response => ([req], response_consumer response)

/-- `Client::create`: POST the serialized entity to the simple collection
url; a serialization failure is an encoding error raised inside the
preparer. -/
def create (client_url : String) (auth : Except DataverseError String)
    (send : HttpRequest → Option Response) (entity : WriteEntity) :
    List HttpRequest × Except DataverseError Nat :=
  request auth send Method.POST
    (build_simple_url client_url entity.get_reference.entity_name)
    (fun req =>
      match entity.serialize with
      | some body =>
        .ok ((req.header "Content-Type" "application/json").setBody body)
      | none => .error .encodingError)
    create_handle_response

/-- `Client::update`: PATCH the serialized entity to the targeted url with
the unconditional `If-Match: *` header. -/
def update (client_url : String) (auth : Except DataverseError String)
    (send : HttpRequest → Option Response) (entity : WriteEntity) :
    List HttpRequest × Except DataverseError Unit :=
  request auth send Method.PATCH
    (build_targeted_url client_url entity.get_reference.entity_name
      entity.get_reference.entity_id)
    (fun req =>
      match entity.serialize with
      | some body =>
        .ok (((req.header "Content-Type" "application/json").header
          "If-Match" "*").setBody body)
      | none => .error .encodingError)
    handle_empty_response

/-- `Client::upsert`: as `update` but without the `If-Match` header. -/
def upsert (client_url : String) (auth : Except DataverseError String)
    (send : HttpRequest → Option Response) (entity : WriteEntity) :
    List HttpRequest × Except DataverseError Unit :=
  request auth send Method.PATCH
    (build_targeted_url client_url entity.get_reference.entity_name
      entity.get_reference.entity_id)
    (fun req =>
      match entity.serialize with
      | some body =>
        .ok ((req.header "Content-Type" "application/json").setBody body)
      | none => .error .encodingError)
    handle_empty_response

/-- `Client::delete`: DELETE to the targeted url, untouched request
builder. -/
def delete (client_url : String) (auth : Except DataverseError String)
    (send : HttpRequest → Option Response) (reference : ReferenceStruct) :
    List HttpRequest × Except DataverseError Unit :=
  request auth send Method.DELETE
    (build_targeted_url client_url reference.entity_name reference.entity_id)
    (fun req => .ok req)
    handle_empty_response

/-- `Client::retrieve`: GET the retrieve url for the reference and the
declared columns. -/
def retrieve {E : Type} (re : ReadEntity E) (client_url : String)
    (auth : Except DataverseError String)
    (send : HttpRequest → Option Response) (reference : ReferenceStruct) :
    List HttpRequest × Except DataverseError E :=
  request auth send Method.GET
    (build_retrieve_url client_url reference.entity_name reference.entity_id
      re.get_columns)
    (fun req => .ok req)
    (retrieve_handle_response re)

/-- `Client::retrieve_multiple`: GET the query url for the declared columns
and the rendered query. -/
def retrieve_multiple {E : Type} (re : ReadEntity E) (client_url : String)
    (auth : Except DataverseError String)
    (send : HttpRequest → Option Response) (query : String) :
    List HttpRequest × Except DataverseError (Page E) :=
  request auth send Method.GET (build_query_url client_url re.get_columns query)
    (fun req => .ok req)
    (pages_handle_response re)

/-- `Client::retrieve_next_page`: fail with the no-next-page error when the
previous page has no cursor (before any authentication or HTTP traffic),
otherwise GET the stored cursor string verbatim. -/
def retrieve_next_page {E : Type} (re : ReadEntity E)
    (auth : Except DataverseError String)
    (send : HttpRequest → Option Response) (previous_page : Page E) :
    List HttpRequest × Except DataverseError (Page E) :=
  match previous_page.next_link with
  | none => ([], .error noNextPageError)
  | some link =>
    request auth send Method.GET link
      (fun req => .ok req)
      (pages_handle_response re)

/-- `Client::execute`: POST the pre-rendered batch envelope to
`simple("$batch")` with the multipart boundary keyed by the batch id. -/
def execute (client_url : String) (auth : Except DataverseError String)
    (send : HttpRequest → Option Response) (batch : Batch) :
    List HttpRequest × Except DataverseError Unit :=
  request auth send Method.POST (build_simple_url client_url "$batch")
    (fun req =>
      .ok ((req.header "Content-Type"
        ("multipart/mixed; boundary=batch_" ++ batch.get_batch_id)).setBody
        batch.to_string))
    handle_empty_response

/-- `Client::merge`: POST a `MergeRequest` with `cascade` hard-coded to
`false` to `simple("Merge")`; the serde encoding of the DTO is an oracle
(`encode_merge`), its failure an encoding error. -/
def merge (client_url : String) (auth : Except DataverseError String)
    (send : HttpRequest → Option Response)
    (encode_merge : MergeRequest → Option String) (entity_name : String)
    (target subordinate : Nat) :
    List HttpRequest × Except DataverseError Unit :=
  request auth send Method.POST (build_simple_url client_url "Merge")
    (fun req =>
      let merge_request := MergeRequest.new entity_name target subordinate false
      match encode_merge merge_request with
      | some body =>
        .ok ((req.header "Content-Type" "application/json").setBody body)
      | none => .error .encodingError)
    handle_empty_response

/-- The four fixed headers the pipeline attaches to every request, in the
order `client.rs` attaches them. -/
def standard_headers (token : String) : List (String × String) :=
  [("Authorization", "Bearer " ++ token), ("OData-MaxVersion", "4.0"),
    ("OData-Version", "4.0"), ("Accept", "application/json")]

/-- The simple url exactly as the spec sentence writes it, with a `/`
separator between the base and `api`; kept to compare against the source's
`build_simple_url`. -/
def spec_simple_url (base collection : String) : String :=
  base ++ "/api/data/v" ++ VERSION ++ "/" ++ collection

/-- The projection fragment as the spec describes it: column names joined
by commas in their original order, no deduplication. -/
def spec_join : List String → String
  | [] => ""
  | [column] => column
  | column :: next :: rest => column ++ "," ++ spec_join (next :: rest)

/-- The shape of a canonical 8-4-4-4-12 hyphenated Uuid, split into its
five hexadecimal digit groups. -/
def UuidShape (s1 s2 s3 s4 s5 : List Char) : Prop :=
  (s1.length = 8 ∧ s2.length = 4 ∧ s3.length = 4 ∧ s4.length = 4 ∧
    s5.length = 12) ∧
  ((∀ c ∈ s1, (hexVal c).isSome = true) ∧ (∀ c ∈ s2, (hexVal c).isSome = true) ∧
    (∀ c ∈ s3, (hexVal c).isSome = true) ∧ (∀ c ∈ s4, (hexVal c).isSome = true) ∧
    (∀ c ∈ s5, (hexVal c).isSome = true))

/-- The 36-character segment assembled from five digit groups. -/
def uuidSegment (s1 s2 s3 s4 s5 : List Char) : List Char :=
  s1 ++ '-' :: (s2 ++ '-' :: (s3 ++ '-' :: (s4 ++ '-' :: s5)))

lemma status_err_of {s : Nat} (h4 : 400 ≤ s) (h5 : s ≤ 599) :
    (is_client_error s || is_server_error s) = true := by
  simp only [is_client_error, is_server_error, Bool.or_eq_true, Bool.and_eq_true,
    decide_eq_true_eq]
  omega

lemma status_ok_of {s : Nat} (h : s < 400 ∨ 599 < s) :
    (is_client_error s || is_server_error s) = false := by
  simp only [is_client_error, is_server_error, Bool.or_eq_false_iff,
    Bool.and_eq_false_iff, decide_eq_false_iff_not, not_le]
  omega

lemma takeHexN_sound : ∀ (n : Nat) (l s r : List Char),
    takeHexN n l = some (s, r) →
    s.length = n ∧ (∀ c ∈ s, (hexVal c).isSome = true) ∧ l = s ++ r := by
  intro n
  induction n with
  | zero =>
    intro l s r h
    simp only [takeHexN, Option.some.injEq, Prod.mk.injEq] at h
    obtain ⟨h1, h2⟩ := h
    subst h1; subst h2
    simp
  | succ n ih =>
    intro l s r h
    match l with
    | [] => simp [takeHexN] at h
    | c :: cs =>
      rw [takeHexN] at h
      by_cases hc : (hexVal c).isSome
      · rw [if_pos hc] at h
        cases htake : takeHexN n cs with
        | none => rw [htake] at h; simp at h
        | some p =>
          obtain ⟨s0, r0⟩ := p
          rw [htake] at h
          simp only [Option.some.injEq, Prod.mk.injEq] at h
          obtain ⟨hs, hr⟩ := h
          subst hs; subst hr
          obtain ⟨hlen, hhex, heq⟩ := ih cs s0 r0 htake
          refine ⟨by simp [hlen], ?_, by simp [heq]⟩
          intro x hx
          rcases List.mem_cons.mp hx with h1 | h1
          · subst h1; exact hc
          · exact hhex x h1
      · rw [if_neg hc] at h; simp at h

lemma takeHexN_complete : ∀ (s r : List Char),
    (∀ c ∈ s, (hexVal c).isSome = true) →
    takeHexN s.length (s ++ r) = some (s, r) := by
  intro s
  induction s with
  | nil => intro r _; simp [takeHexN]
  | cons c cs ih =>
    intro r hhex
    have hc : (hexVal c).isSome = true := hhex c (by simp)
    have hrest := ih r (fun x hx => hhex x (by simp [hx]))
    simp [takeHexN, hc, hrest]

lemma takeDash_sound : ∀ {l r : List Char}, takeDash l = some r → l = '-' :: r := by
  intro l r h
  match l with
  | [] => simp [takeDash] at h
  | c :: cs =>
    by_cases hc : c = '-'
    · subst hc
      simp only [takeDash, Option.some.injEq] at h
      rw [h]
    · simp [takeDash, hc] at h

lemma takeDash_cons (r : List Char) : takeDash ('-' :: r) = some r := rfl

lemma matchUuidAt_sound {l seg : List Char} (h : matchUuidAt l = some seg) :
    ∃ s1 s2 s3 s4 s5, UuidShape s1 s2 s3 s4 s5 ∧ seg = uuidSegment s1 s2 s3 s4 s5 := by
  rw [matchUuidAt] at h
  cases e1 : takeHexN 8 l with
  | none => rw [e1] at h; simp at h
  | some p1 =>
  obtain ⟨s1, l1⟩ := p1
  rw [e1] at h
  dsimp only at h
  cases d1 : takeDash l1 with
  | none => rw [d1] at h; simp at h
  | some l1d =>
  rw [d1] at h
  dsimp only at h
  cases e2 : takeHexN 4 l1d with
  | none => rw [e2] at h; simp at h
  | some p2 =>
  obtain ⟨s2, l2⟩ := p2
  rw [e2] at h
  dsimp only at h
  cases d2 : takeDash l2 with
  | none => rw [d2] at h; simp at h
  | some l2d =>
  rw [d2] at h
  dsimp only at h
  cases e3 : takeHexN 4 l2d with
  | none => rw [e3] at h; simp at h
  | some p3 =>
  obtain ⟨s3, l3⟩ := p3
  rw [e3] at h
  dsimp only at h
  cases d3 : takeDash l3 with
  | none => rw [d3] at h; simp at h
  | some l3d =>
  rw [d3] at h
  dsimp only at h
  cases e4 : takeHexN 4 l3d with
  | none => rw [e4] at h; simp at h
  | some p4 =>
  obtain ⟨s4, l4⟩ := p4
  rw [e4] at h
  dsimp only at h
  cases d4 : takeDash l4 with
  | none => rw [d4] at h; simp at h
  | some l4d =>
  rw [d4] at h
  dsimp only at h
  cases e5 : takeHexN 12 l4d with
  | none => rw [e5] at h; simp at h
  | some p5 =>
  obtain ⟨s5, l5⟩ := p5
  rw [e5] at h
  dsimp only at h
  simp only [Option.some.injEq] at h
  obtain ⟨hl1, hx1, _⟩ := takeHexN_sound 8 l s1 l1 e1
  obtain ⟨hl2, hx2, _⟩ := takeHexN_sound 4 l1d s2 l2 e2
  obtain ⟨hl3, hx3, _⟩ := takeHexN_sound 4 l2d s3 l3 e3
  obtain ⟨hl4, hx4, _⟩ := takeHexN_sound 4 l3d s4 l4 e4
  obtain ⟨hl5, hx5, _⟩ := takeHexN_sound 12 l4d s5 l5 e5
  exact ⟨s1, s2, s3, s4, s5, ⟨⟨hl1, hl2, hl3, hl4, hl5⟩, hx1, hx2, hx3, hx4, hx5⟩,
    h.symm⟩

lemma uuid_parse_str_sound {seg : List Char} {u : Nat}
    (h : uuid_parse_str seg = some u) :
    ∃ s1 s2 s3 s4 s5, UuidShape s1 s2 s3 s4 s5 ∧ seg = uuidSegment s1 s2 s3 s4 s5 := by
  rw [uuid_parse_str] at h
  cases e1 : takeHexN 8 seg with
  | none => rw [e1] at h; simp at h
  | some p1 =>
  obtain ⟨s1, l1⟩ := p1
  rw [e1] at h
  dsimp only at h
  cases d1 : takeDash l1 with
  | none => rw [d1] at h; simp at h
  | some l1d =>
  rw [d1] at h
  dsimp only at h
  cases e2 : takeHexN 4 l1d with
  | none => rw [e2] at h; simp at h
  | some p2 =>
  obtain ⟨s2, l2⟩ := p2
  rw [e2] at h
  dsimp only at h
  cases d2 : takeDash l2 with
  | none => rw [d2] at h; simp at h
  | some l2d =>
  rw [d2] at h
  dsimp only at h
  cases e3 : takeHexN 4 l2d with
  | none => rw [e3] at h; simp at h
  | some p3 =>
  obtain ⟨s3, l3⟩ := p3
  rw [e3] at h
  dsimp only at h
  cases d3 : takeDash l3 with
  | none => rw [d3] at h; simp at h
  | some l3d =>
  rw [d3] at h
  dsimp only at h
  cases e4 : takeHexN 4 l3d with
  | none => rw [e4] at h; simp at h
  | some p4 =>
  obtain ⟨s4, l4⟩ := p4
  rw [e4] at h
  dsimp only at h
  cases d4 : takeDash l4 with
  | none => rw [d4] at h; simp at h
  | some l4d =>
  rw [d4] at h
  dsimp only at h
  cases e5 : takeHexN 12 l4d with
  | none => rw [e5] at h; simp at h
  | some p5 =>
  obtain ⟨s5, l5⟩ := p5
  rw [e5] at h
  dsimp only at h
  by_cases he : l5.isEmpty
  · rw [if_pos he] at h
    obtain ⟨hl1, hx1, hq1⟩ := takeHexN_sound 8 seg s1 l1 e1
    obtain ⟨hl2, hx2, hq2⟩ := takeHexN_sound 4 l1d s2 l2 e2
    obtain ⟨hl3, hx3, hq3⟩ := takeHexN_sound 4 l2d s3 l3 e3
    obtain ⟨hl4, hx4, hq4⟩ := takeHexN_sound 4 l3d s4 l4 e4
    obtain ⟨hl5, hx5, hq5⟩ := takeHexN_sound 12 l4d s5 l5 e5
    refine ⟨s1, s2, s3, s4, s5, ⟨⟨hl1, hl2, hl3, hl4, hl5⟩, hx1, hx2, hx3, hx4, hx5⟩, ?_⟩
    have hl5nil : l5 = [] := List.isEmpty_iff.mp he
    subst hl5nil
    rw [hq1, takeDash_sound d1, hq2, takeDash_sound d2, hq3, takeDash_sound d3,
      hq4, takeDash_sound d4, hq5, List.append_nil, uuidSegment]
  · rw [if_neg he] at h; simp at h

lemma matchUuidAt_complete {s1 s2 s3 s4 s5 : List Char}
    (h : UuidShape s1 s2 s3 s4 s5) (post : List Char) :
    matchUuidAt (uuidSegment s1 s2 s3 s4 s5 ++ post) =
      some (uuidSegment s1 s2 s3 s4 s5) := by
  obtain ⟨⟨h1, h2, h3, h4, h5⟩, hx1, hx2, hx3, hx4, hx5⟩ := h
  have hsplit : uuidSegment s1 s2 s3 s4 s5 ++ post =
      s1 ++ '-' :: (s2 ++ '-' :: (s3 ++ '-' :: (s4 ++ '-' :: (s5 ++ post)))) := by
    simp [uuidSegment, List.append_assoc]
  have t1 := takeHexN_complete s1
    ('-' :: (s2 ++ '-' :: (s3 ++ '-' :: (s4 ++ '-' :: (s5 ++ post))))) hx1
  rw [h1] at t1
  have t2 := takeHexN_complete s2 ('-' :: (s3 ++ '-' :: (s4 ++ '-' :: (s5 ++ post)))) hx2
  rw [h2] at t2
  have t3 := takeHexN_complete s3 ('-' :: (s4 ++ '-' :: (s5 ++ post))) hx3
  rw [h3] at t3
  have t4 := takeHexN_complete s4 ('-' :: (s5 ++ post)) hx4
  rw [h4] at t4
  have t5 := takeHexN_complete s5 post hx5
  rw [h5] at t5
  rw [hsplit]
  simp only [matchUuidAt, t1, takeDash_cons, t2, t3, t4, t5, uuidSegment]

lemma uuid_parse_str_complete {s1 s2 s3 s4 s5 : List Char}
    (h : UuidShape s1 s2 s3 s4 s5) :
    (uuid_parse_str (uuidSegment s1 s2 s3 s4 s5)).isSome = true := by
  obtain ⟨⟨h1, h2, h3, h4, h5⟩, hx1, hx2, hx3, hx4, hx5⟩ := h
  have hsplit : uuidSegment s1 s2 s3 s4 s5 =
      s1 ++ '-' :: (s2 ++ '-' :: (s3 ++ '-' :: (s4 ++ '-' :: (s5 ++ [])))) := by
    simp [uuidSegment, List.append_assoc]
  have t1 := takeHexN_complete s1
    ('-' :: (s2 ++ '-' :: (s3 ++ '-' :: (s4 ++ '-' :: (s5 ++ []))))) hx1
  rw [h1] at t1
  have t2 := takeHexN_complete s2 ('-' :: (s3 ++ '-' :: (s4 ++ '-' :: (s5 ++ [])))) hx2
  rw [h2] at t2
  have t3 := takeHexN_complete s3 ('-' :: (s4 ++ '-' :: (s5 ++ []))) hx3
  rw [h3] at t3
  have t4 := takeHexN_complete s4 ('-' :: (s5 ++ [])) hx4
  rw [h4] at t4
  have t5 := takeHexN_complete s5 [] hx5
  rw [h5] at t5
  rw [hsplit]
  simp only [uuid_parse_str, t1, takeDash_cons, t2, t3, t4, t5,
    List.isEmpty_nil, if_true, Option.isSome_some]

lemma findUuid_sound : ∀ {l seg : List Char}, findUuid l = some seg →
    ∃ t, matchUuidAt t = some seg := by
  intro l
  induction l with
  | nil => intro seg h; simp [findUuid] at h
  | cons c cs ih =>
    intro seg h
    rw [findUuid] at h
    cases e : matchUuidAt (c :: cs) with
    | some s =>
      rw [e] at h
      simp only [Option.some.injEq] at h
      exact ⟨c :: cs, by rw [e, h]⟩
    | none =>
      rw [e] at h
      exact ih h

lemma matchUuidAt_nil : matchUuidAt [] = none := rfl

lemma findUuid_of_matchUuidAt {l : List Char}
    (h : (matchUuidAt l).isSome = true) : (findUuid l).isSome = true := by
  match l with
  | [] => rw [matchUuidAt_nil] at h; simp at h
  | c :: cs =>
    rw [findUuid]
    cases e : matchUuidAt (c :: cs) with
    | some s => simp
    | none => rw [e] at h; simp at h

lemma findUuid_cons_of_isSome {c : Char} {cs : List Char}
    (h : (findUuid cs).isSome = true) : (findUuid (c :: cs)).isSome = true := by
  rw [findUuid]
  cases e : matchUuidAt (c :: cs) with
  | some s => simp
  | none => exact h

lemma findUuid_complete : ∀ (pre l : List Char),
    (matchUuidAt l).isSome = true → (findUuid (pre ++ l)).isSome = true := by
  intro pre
  induction pre with
  | nil => intro l h; simpa using findUuid_of_matchUuidAt h
  | cons c pre ih =>
    intro l h
    rw [List.cons_append]
    exact findUuid_cons_of_isSome (ih l h)

lemma findUuid_parse_isSome {l seg : List Char} (h : findUuid l = some seg) :
    (uuid_parse_str seg).isSome = true := by
  obtain ⟨t, ht⟩ := findUuid_sound h
  obtain ⟨s1, s2, s3, s4, s5, hshape, hseg⟩ := matchUuidAt_sound ht
  rw [hseg]
  exact uuid_parse_str_complete hshape

lemma findUuid_of_embedded_segment {l pre seg post : List Char} {u : Nat}
    (hdec : l = pre ++ seg ++ post) (hparse : uuid_parse_str seg = some u) :
    (findUuid l).isSome = true := by
  obtain ⟨s1, s2, s3, s4, s5, hshape, hseg⟩ := uuid_parse_str_sound hparse
  subst hseg
  rw [hdec, List.append_assoc]
  exact findUuid_complete pre _ (by rw [matchUuidAt_complete hshape post]; rfl)

lemma joinLoop_true (c : String) (cs : List String) : ∀ (s : String),
    joinLoop s true (c :: cs) = s ++ "," ++ spec_join (c :: cs) := by
  induction cs generalizing c with
  | nil => intro s; simp [joinLoop, spec_join]
  | cons c2 cs2 ih =>
    intro s
    rw [joinLoop]
    simp only [if_true]
    rw [ih c2, spec_join]
    simp [String.append_assoc]

lemma joinColumns_eq_spec_join : ∀ (columns : List String),
    joinColumns columns = spec_join columns := by
  intro columns
  match columns with
  | [] => rfl
  | c :: cs =>
    rw [joinColumns, joinLoop]
    simp only [Bool.false_eq_true, if_false, String.empty_append]
    cases cs with
    | nil => simp [joinLoop, spec_join]
    | cons c2 cs2 => rw [joinLoop_true, spec_join]

lemma request_len {E : Type} (auth : Except DataverseError String)
    (send : HttpRequest → Option Response) (method : Method) (url : String)
    (request_preparer : HttpRequest → Except DataverseError HttpRequest)
    (response_consumer : Response → Except DataverseError E) :
    (request auth send method url request_preparer response_consumer).1.length ≤ 1 := by
  unfold request
  cases auth with
  | error e => simp
  | ok token =>
    cases request_preparer { method := method, url := url, headers := [], body := none } with
    | error e => simp
    | ok prepared =>
      dsimp only
      cases send ((((prepared.bearer_auth token).header "OData-MaxVersion"
          "4.0").header "OData-Version" "4.0").header "Accept" "application/json") with
      | none => simp
      | some r => simp

/-- C1: for every operation (create, update, upsert, delete, retrieve,
retrieve_multiple, retrieve_next_page, execute, merge) and every HTTP
response with status in the 4xx or 5xx range, the operation returns a
ServerError failure whose message is the response body text, or the fixed
fallback string "no error details provided from server" when the body
cannot be read (`resp.body = none`); a body-read failure is never
propagated as its own error. -/
theorem C1_server_error_uniform (u tok : String) (ref : ReferenceStruct)
    (body : String) (resp : Response) (E : Type) (re : ReadEntity E)
    (query link bid bbody ename mbody : String) (t s : Nat) (es : List E)
    (h4 : 400 ≤ resp.status) (h5 : resp.status ≤ 599) :
    (create u (.ok tok) (fun _ => some resp) ⟨ref, some body⟩).2 =
      .error (.serverError (resp.body.getD "no error details provided from server")) ∧
    (update u (.ok tok) (fun _ => some resp) ⟨ref, some body⟩).2 =
      .error (.serverError (resp.body.getD "no error details provided from server")) ∧
    (upsert u (.ok tok) (fun _ => some resp) ⟨ref, some body⟩).2 =
      .error (.serverError (resp.body.getD "no error details provided from server")) ∧
    (delete u (.ok tok) (fun _ => some resp) ref).2 =
      .error (.serverError (resp.body.getD "no error details provided from server")) ∧
    (retrieve re u (.ok tok) (fun _ => some resp) ref).2 =
      .error (.serverError (resp.body.getD "no error details provided from server")) ∧
    (retrieve_multiple re u (.ok tok) (fun _ => some resp) query).2 =
      .error (.serverError (resp.body.getD "no error details provided from server")) ∧
    (retrieve_next_page re (.ok tok) (fun _ => some resp) ⟨es, some link⟩).2 =
      .error (.serverError (resp.body.getD "no error details provided from server")) ∧
    (execute u (.ok tok) (fun _ => some resp) ⟨bid, bbody⟩).2 =
      .error (.serverError (resp.body.getD "no error details provided from server")) ∧
    (merge u (.ok tok) (fun _ => some resp) (fun _ => some mbody) ename t s).2 =
      .error (.serverError (resp.body.getD "no error details provided from server")) := by
  have hst := status_err_of h4 h5
  refine ⟨?_, ?_, ?_, ?_, ?_, ?_, ?_, ?_, ?_⟩ <;>
    simp [create, update, upsert, delete, retrieve, retrieve_multiple,
      retrieve_next_page, execute, merge, request, create_handle_response,
      handle_empty_response, retrieve_handle_response, pages_handle_response,
      fallbackMessage, hst]

/-- C1 witness: a concrete 404 response with an unreadable body yields the
fallback-message server error from `create`. -/
theorem C1_witness :
    (create "b/" (.ok "t") (fun _ => some ⟨404, [], none⟩)
        ⟨⟨"contacts", 0⟩, some "x"⟩).2 =
      .error (.serverError "no error details provided from server") :=
  (C1_server_error_uniform "b/" "t" ⟨"contacts", 0⟩ "x" ⟨404, [], none⟩
    Unit ⟨["a"], fun _ => none, fun _ => none⟩ "q" "l" "i" "bb" "e" "m" 0 1 []
    (by decide) (by decide)).1

/-- C4 counterexample: the claim reads the simple URL as
`{base}/api/data/v{VERSION}/{collection}` with a separating slash between
the base and `api`; `build_simple_url` inserts no such separator, so even
for the base URL of the crate's own documentation the two differ (the code
yields `...com/api/...` only because the base itself ends in a slash). -/
theorem C4_counterexample :
    decide (build_simple_url "https://instance.crm.dynamics.com/" "contacts" =
      spec_simple_url "https://instance.crm.dynamics.com/" "contacts") = false := by
  rfl

/-- C4 (amended): for every base URL and collection, the simple URL is the
base directly concatenated with `api/data/v` + VERSION + `/` + collection —
no slash is inserted, the separator must come from the base URL itself
(which, when it ends in `/`, realises the spec's `{base}/api/...` template
with `{base}` the slashless base) — VERSION is the fixed constant "9.2",
and for every UUID the targeted URL is the simple URL followed by `(`, the
canonical hyphenated form of the UUID, and `)`. -/
theorem C4_url_shapes (base collection : String) (id : Nat) :
    VERSION = "9.2" ∧
    build_simple_url base collection =
      base ++ "api/data/v" ++ VERSION ++ "/" ++ collection ∧
    build_simple_url (base ++ "/") collection = spec_simple_url base collection ∧
    build_targeted_url base collection id =
      build_simple_url base collection ++ "(" ++ as_hyphenated id ++ ")" := by
    refine ⟨rfl, rfl, ?_, rfl⟩
    rw [build_simple_url, spec_simple_url, String.append_assoc base "/" "api/data/v"]
    rfl

/-- C5: the projection fragment appended to the URL (`?$select=` for
`retrieve`, `&$select=` for queries) is exactly the column names joined by
commas in their original declared order — no deduplication, as the repeated
column instance shows — and the query fragment between the fixed path
prefix and `&$select=` is the external query collaborator's rendering,
verbatim. -/
theorem C5_projection (base collection query : String) (id : Nat)
    (columns : List String) :
    build_retrieve_url base collection id columns =
      build_targeted_url base collection id ++ "?$select=" ++ spec_join columns ∧
    build_query_url base columns query =
      base ++ "api/data/v" ++ VERSION ++ "/" ++ query ++ "&$select=" ++
        spec_join columns ∧
    spec_join ["a", "b", "a"] = "a,b,a" := by
  refine ⟨?_, ?_, by rfl⟩
  · rw [build_retrieve_url, build_targeted_url, joinColumns_eq_spec_join]
  · rw [build_query_url, joinColumns_eq_spec_join]

/-- C6: `update` issues a PATCH to the targeted URL carrying the
unconditional overwrite assertion `If-Match: *`; `upsert` issues a request
identical in method, URL, content type and body, differing only in that the
`If-Match` header is omitted. -/
theorem C6_update_upsert (base tok body : String) (ref : ReferenceStruct)
    (send : HttpRequest → Option Response) :
    (update base (.ok tok) send ⟨ref, some body⟩).1 =
      [{ method := Method.PATCH,
         url := build_targeted_url base ref.entity_name ref.entity_id,
         headers := [("Content-Type", "application/json"), ("If-Match", "*")] ++
           standard_headers tok,
         body := some body }] ∧
    (upsert base (.ok tok) send ⟨ref, some body⟩).1 =
      [{ method := Method.PATCH,
         url := build_targeted_url base ref.entity_name ref.entity_id,
         headers := [("Content-Type", "application/json")] ++ standard_headers tok,
         body := some body }] := by
  constructor
  · simp only [update, request]
    split <;> simp [HttpRequest.header, HttpRequest.bearer_auth,
      HttpRequest.setBody, standard_headers]
  · simp only [upsert, request]
    split <;> simp [HttpRequest.header, HttpRequest.bearer_auth,
      HttpRequest.setBody, standard_headers]

/-- C7: every public operation dispatches at most one HTTP call through the
shared pipeline, and exactly one when token acquisition and request
preparation succeed; a token failure fails the whole operation with that
very error and sends nothing (no re-authentication retry is possible: the
result is a function of the single token obtained); every dispatched
request carries the fixed standard headers — bearer authorization with the
obtained token, OData-MaxVersion 4.0, OData-Version 4.0 and JSON accept —
as the explicit request values show. -/
theorem C7_single_dispatch (base tok body query link bid bbody ename mbody : String)
    (ref : ReferenceStruct) (t s : Nat) (E : Type) (re : ReadEntity E)
    (es : List E) (send : HttpRequest → Option Response) (e : DataverseError)
    (auth : Except DataverseError String) (ent : WriteEntity) (p : Page E)
    (b : Batch) (enc : MergeRequest → Option String) :
    (create base (.error e) send ent = ([], .error e) ∧
     update base (.error e) send ent = ([], .error e) ∧
     upsert base (.error e) send ent = ([], .error e) ∧
     delete base (.error e) send ref = ([], .error e) ∧
     retrieve re base (.error e) send ref = ([], .error e) ∧
     retrieve_multiple re base (.error e) send query = ([], .error e) ∧
     retrieve_next_page re (.error e) send ⟨es, some link⟩ = ([], .error e) ∧
     execute base (.error e) send b = ([], .error e) ∧
     merge base (.error e) send enc ename t s = ([], .error e)) ∧
    ((create base auth send ent).1.length ≤ 1 ∧
     (update base auth send ent).1.length ≤ 1 ∧
     (upsert base auth send ent).1.length ≤ 1 ∧
     (delete base auth send ref).1.length ≤ 1 ∧
     (retrieve re base auth send ref).1.length ≤ 1 ∧
     (retrieve_multiple re base auth send query).1.length ≤ 1 ∧
     (retrieve_next_page re auth send p).1.length ≤ 1 ∧
     (execute base auth send b).1.length ≤ 1 ∧
     (merge base auth send enc ename t s).1.length ≤ 1) ∧
    ((create base (.ok tok) send ⟨ref, some body⟩).1 =
      [{ method := Method.POST, url := build_simple_url base ref.entity_name,
         headers := [("Content-Type", "application/json")] ++ standard_headers tok,
         body := some body }] ∧
     (update base (.ok tok) send ⟨ref, some body⟩).1 =
      [{ method := Method.PATCH,
         url := build_targeted_url base ref.entity_name ref.entity_id,
         headers := [("Content-Type", "application/json"), ("If-Match", "*")] ++
           standard_headers tok,
         body := some body }] ∧
     (upsert base (.ok tok) send ⟨ref, some body⟩).1 =
      [{ method := Method.PATCH,
         url := build_targeted_url base ref.entity_name ref.entity_id,
         headers := [("Content-Type", "application/json")] ++ standard_headers tok,
         body := some body }] ∧
     (delete base (.ok tok) send ref).1 =
      [{ method := Method.DELETE,
         url := build_targeted_url base ref.entity_name ref.entity_id,
         headers := standard_headers tok, body := none }] ∧
     (retrieve re base (.ok tok) send ref).1 =
      [{ method := Method.GET,
         url := build_retrieve_url base ref.entity_name ref.entity_id re.get_columns,
         headers := standard_headers tok, body := none }] ∧
     (retrieve_multiple re base (.ok tok) send query).1 =
      [{ method := Method.GET, url := build_query_url base re.get_columns query,
         headers := standard_headers tok, body := none }] ∧
     (retrieve_next_page re (.ok tok) send ⟨es, some link⟩).1 =
      [{ method := Method.GET, url := link,
         headers := standard_headers tok, body := none }] ∧
     (execute base (.ok tok) send ⟨bid, bbody⟩).1 =
      [{ method := Method.POST, url := build_simple_url base "$batch",
         headers := [("Content-Type", "multipart/mixed; boundary=batch_" ++ bid)] ++
           standard_headers tok,
         body := some bbody }] ∧
     (merge base (.ok tok) send (fun _ => some mbody) ename t s).1 =
      [{ method := Method.POST, url := build_simple_url base "Merge",
         headers := [("Content-Type", "application/json")] ++ standard_headers tok,
         body := some mbody }]) := by
  refine ⟨⟨rfl, rfl, rfl, rfl, rfl, rfl, rfl, rfl, rfl⟩,
    ⟨request_len _ _ _ _ _ _, request_len _ _ _ _ _ _, request_len _ _ _ _ _ _,
     request_len _ _ _ _ _ _, request_len _ _ _ _ _ _, request_len _ _ _ _ _ _,
     ?_, request_len _ _ _ _ _ _, request_len _ _ _ _ _ _⟩,
    ?_, ?_, ?_, ?_, ?_, ?_, ?_, ?_, ?_⟩
  · rw [retrieve_next_page]
    cases p.next_link with
    | none => simp
    | some l => exact request_len _ _ _ _ _ _
  · simp only [create, request]
    split <;> simp [HttpRequest.header, HttpRequest.bearer_auth,
      HttpRequest.setBody, standard_headers]
  · simp only [update, request]
    split <;> simp [HttpRequest.header, HttpRequest.bearer_auth,
      HttpRequest.setBody, standard_headers]
  · simp only [upsert, request]
    split <;> simp [HttpRequest.header, HttpRequest.bearer_auth,
      HttpRequest.setBody, standard_headers]
  · simp only [delete, request]
    split <;> simp [HttpRequest.header, HttpRequest.bearer_auth, standard_headers]
  · simp only [retrieve, request]
    split <;> simp [HttpRequest.header, HttpRequest.bearer_auth, standard_headers]
  · simp only [retrieve_multiple, request]
    split <;> simp [HttpRequest.header, HttpRequest.bearer_auth, standard_headers]
  · simp only [retrieve_next_page, request]
    split <;> simp [HttpRequest.header, HttpRequest.bearer_auth, standard_headers]
  · simp only [execute, request]
    split <;> simp [HttpRequest.header, HttpRequest.bearer_auth,
      HttpRequest.setBody, standard_headers]
  · simp only [merge, request]
    split <;> simp [HttpRequest.header, HttpRequest.bearer_auth,
      HttpRequest.setBody, standard_headers]

/-- C2: on a successful create response, when the `OData-EntityId` header
is present and its value contains a substring matching the canonical
8-4-4-4-12 hex-digit-group pattern, `create` returns exactly the UUID
parsed from the (leftmost) matching segment, whatever text surrounds it;
when the header is absent, or no such pattern occurs in it, `create` fails
with the ProtocolViolation "Dataverse provided no Uuid" although the HTTP
call succeeded.  The last clause ties the scan to the pattern: whenever a
well-shaped segment occurs anywhere in the header text, the scan finds a
match. -/
theorem C2_create_uuid_extraction (u tok : String) (ref : ReferenceStruct)
    (body : String) (resp : Response)
    (hstatus : resp.status < 400 ∨ 599 < resp.status) :
    (resp.headers.lookup "OData-EntityId" = none →
      (create u (.ok tok) (fun _ => some resp) ⟨ref, some body⟩).2 =
        .error noUuidError) ∧
    (∀ hv, resp.headers.lookup "OData-EntityId" = some hv →
      findUuid ((headerValueToStr hv).getD []) = none →
      (create u (.ok tok) (fun _ => some resp) ⟨ref, some body⟩).2 =
        .error noUuidError) ∧
    (∀ hv seg, resp.headers.lookup "OData-EntityId" = some hv →
      findUuid ((headerValueToStr hv).getD []) = some seg →
      ∃ uuid, uuid_parse_str seg = some uuid ∧
        (create u (.ok tok) (fun _ => some resp) ⟨ref, some body⟩).2 = .ok uuid) ∧
    (∀ (l pre seg post : List Char) (uuid : Nat), l = pre ++ seg ++ post →
      uuid_parse_str seg = some uuid → (findUuid l).isSome = true) := by
  have hst := status_ok_of hstatus
  refine ⟨?_, ?_, ?_, ?_⟩
  · intro hlook
    simp [create, request, create_handle_response, hst, hlook, noUuidError]
  · intro hv hlook hfind
    simp [create, request, create_handle_response, hst, hlook, hfind, noUuidError]
  · intro hv seg hlook hfind
    obtain ⟨uuid, huuid⟩ := Option.isSome_iff_exists.mp (findUuid_parse_isSome hfind)
    refine ⟨uuid, huuid, ?_⟩
    simp [create, request, create_handle_response, hst, hlook, hfind, huuid]
  · intro l pre seg post uuid hdec hparse
    exact findUuid_of_embedded_segment hdec hparse

/-- C2 witness: a header embedding a canonical UUID between arbitrary text
yields exactly that UUID from `create`. -/
theorem C2_witness :
    ∃ uuid, uuid_parse_str "12345678-1234-1234-1234-123456789012".toList = some uuid ∧
      (create "b/" (.ok "t")
        (fun _ => some ⟨204,
          [("OData-EntityId",
            "junk 12345678-1234-1234-1234-123456789012 more".toList.map Char.toNat)],
          none⟩)
        ⟨⟨"contacts", 0⟩, some "x"⟩).2 = .ok uuid :=
  (C2_create_uuid_extraction "b/" "t" ⟨"contacts", 0⟩ "x"
      ⟨204, [("OData-EntityId",
        "junk 12345678-1234-1234-1234-123456789012 more".toList.map Char.toNat)],
        none⟩
      (by decide)).2.2.1
    ("junk 12345678-1234-1234-1234-123456789012 more".toList.map Char.toNat)
    "12345678-1234-1234-1234-123456789012".toList (by decide) (by decide)

/-- C3: a `Page` is incomplete exactly when it carries a continuation
cursor; `retrieve_next_page` on a cursor-less page fails with the
no-next-page error without issuing any HTTP request; on a page with a
cursor it issues a single GET whose URL is the stored cursor string
verbatim, and on a successfully decoded response returns the new page. -/
theorem C3_pagination (E : Type) (re : ReadEntity E) (tok link : String)
    (send : HttpRequest → Option Response)
    (auth : Except DataverseError String) (p : Page E) (es : List E) :
    (p.is_incomplete = true ↔ p.next_link.isSome = true) ∧
    (p.next_link = none →
      retrieve_next_page re auth send p = ([], .error noNextPageError)) ∧
    ((retrieve_next_page re (.ok tok) send ⟨es, some link⟩).1 =
      [{ method := Method.GET, url := link, headers := standard_headers tok,
         body := none }]) ∧
    (∀ (resp : Response) (es2 : List E) (nl : Option String)
      (content : String), resp.status < 400 ∨ 599 < resp.status →
      resp.body = some content → re.deserialize_page content = some (es2, nl) →
      (retrieve_next_page re (.ok tok) (fun _ => some resp) ⟨es, some link⟩).2 =
        .ok ⟨es2, nl⟩) := by
  refine ⟨Iff.rfl, ?_, ?_, ?_⟩
  · intro h
    unfold retrieve_next_page
    rw [h]
  · simp only [retrieve_next_page, request]
    split <;> simp [HttpRequest.header, HttpRequest.bearer_auth, standard_headers]
  · intro resp es2 nl content hstatus hbody hdes
    have hst := status_ok_of hstatus
    simp [retrieve_next_page, request, pages_handle_response, hst, hbody, hdes,
      Page.new]

/-- C3 witness: a page with a cursor is continued by a GET whose response
decodes into the next page. -/
theorem C3_witness :
    (retrieve_next_page (E := Unit)
      ⟨["c"], fun _ => none, fun _ => some ([()], none)⟩ (.ok "t")
      (fun _ => some ⟨200, [], some "pg"⟩) ⟨[], some "next-url"⟩).2 =
      .ok ⟨[()], none⟩ :=
  (C3_pagination Unit ⟨["c"], fun _ => none, fun _ => some ([()], none)⟩ "t"
      "next-url" (fun _ => some ⟨200, [], some "pg"⟩) (.ok "t") ⟨[], none⟩
      []).2.2.2
    ⟨200, [], some "pg"⟩ [()] none "pg" (by decide) rfl rfl

/-- C9: every `merge` call sends as body the encoding of a `MergeRequest`
whose cascade field is `false`; the `merge` signature takes only the entity
name, target and subordinate, so no caller input can make the cascade field
true. -/
theorem C9_merge_no_cascade (base tok ename mbody : String) (t s : Nat)
    (send : HttpRequest → Option Response) (enc : MergeRequest → Option String)
    (henc : enc (MergeRequest.new ename t s false) = some mbody) :
    (MergeRequest.new ename t s false).cascade = false ∧
    (merge base (.ok tok) send enc ename t s).1 =
      [{ method := Method.POST, url := build_simple_url base "Merge",
         headers := [("Content-Type", "application/json")] ++ standard_headers tok,
         body := some mbody }] := by
  refine ⟨rfl, ?_⟩
  simp only [merge, request, henc]
  split <;> simp [HttpRequest.header, HttpRequest.bearer_auth,
    HttpRequest.setBody, standard_headers]

/-- C9 witness: a concrete merge call sends the encoding of the
cascade-false request. -/
theorem C9_witness :
    (MergeRequest.new "account" 1 2 false).cascade = false ∧
    (merge "b/" (.ok "t") (fun _ => none) (fun _ => some "mr") "account" 1 2).1 =
      [{ method := Method.POST, url := build_simple_url "b/" "Merge",
         headers := [("Content-Type", "application/json")] ++ standard_headers "t",
         body := some "mr" }] :=
  C9_merge_no_cascade "b/" "t" "account" "mr" 1 2 (fun _ => none)
    (fun _ => some "mr") rfl

/-- C10: the create identifier extraction is total: a confirmation header
whose bytes are not a visible-ASCII string is treated as the empty string
and yields the missing-identifier error rather than a panic, and whenever
the 8-4-4-4-12 scan finds a match, the UUID parse of the matched segment
never fails, so that error branch is unreachable. -/
theorem C10_extraction_total (u tok : String) (ref : ReferenceStruct)
    (body : String) (resp : Response)
    (hstatus : resp.status < 400 ∨ 599 < resp.status) :
    (∀ hv, resp.headers.lookup "OData-EntityId" = some hv →
      headerValueToStr hv = none →
      (create u (.ok tok) (fun _ => some resp) ⟨ref, some body⟩).2 =
        .error noUuidError) ∧
    (∀ (l seg : List Char), findUuid l = some seg →
      (uuid_parse_str seg).isSome = true) := by
  have hst := status_ok_of hstatus
  constructor
  · intro hv hlook hstr
    simp [create, request, create_handle_response, hst, hlook, hstr, findUuid,
      noUuidError]
  · intro l seg h
    exact findUuid_parse_isSome h

/-- C10 witness: a header value with a non-ASCII byte yields the
missing-identifier error from `create`. -/
theorem C10_witness :
    (create "b/" (.ok "t")
      (fun _ => some ⟨204, [("OData-EntityId", [200])], none⟩)
      ⟨⟨"contacts", 0⟩, some "x"⟩).2 = .error noUuidError :=
  (C10_extraction_total "b/" "t" ⟨"contacts", 0⟩ "x"
      ⟨204, [("OData-EntityId", [200])], none⟩ (by decide)).1
    [200] (by decide) (by decide)

/-- C8: every failure an operation can return is a typed result drawn from
distinct error kinds: the same `create` call fails with the authentication
capability's error on token failure, EncodingError on serialization
failure, TransportError on a failed send, ServerError with the body text on
a 4xx response and ProtocolViolation on a missing identifier header, while
`retrieve` decodes failures as DecodingError; the final clause shows the
kinds are pairwise distinguishable from the error value alone.  The
embedding is total, so no failure path escapes the typed result. -/
theorem C8_error_taxonomy (base tok msg bodytext : String)
    (ref : ReferenceStruct) (body : String) (hs : List (String × List Nat)) :
    (create base (.error (.authenticationError msg)) (fun _ => none)
      ⟨ref, some body⟩).2 = .error (.authenticationError msg) ∧
    (create base (.ok tok) (fun _ => none) ⟨ref, none⟩).2 =
      .error .encodingError ∧
    (create base (.ok tok) (fun _ => none) ⟨ref, some body⟩).2 =
      .error .transportError ∧
    (create base (.ok tok) (fun _ => some ⟨404, hs, some bodytext⟩)
      ⟨ref, some body⟩).2 = .error (.serverError bodytext) ∧
    (create base (.ok tok) (fun _ => some ⟨204, [], none⟩)
      ⟨ref, some body⟩).2 = .error noUuidError ∧
    (retrieve (E := Unit) ⟨["a"], fun _ => none, fun _ => none⟩ base (.ok tok)
      (fun _ => some ⟨200, [], some "junk"⟩) ref).2 = .error .decodingError ∧
    (∀ m1 m2 : String,
      DataverseError.authenticationError m1 ≠ .transportError ∧
      DataverseError.authenticationError m1 ≠ .encodingError ∧
      DataverseError.authenticationError m1 ≠ .decodingError ∧
      DataverseError.authenticationError m1 ≠ .serverError m2 ∧
      DataverseError.authenticationError m1 ≠ .protocolViolation m2 ∧
      DataverseError.transportError ≠ .encodingError ∧
      DataverseError.transportError ≠ .decodingError ∧
      DataverseError.transportError ≠ .serverError m2 ∧
      DataverseError.transportError ≠ .protocolViolation m2 ∧
      DataverseError.encodingError ≠ .decodingError ∧
      DataverseError.encodingError ≠ .serverError m2 ∧
      DataverseError.encodingError ≠ .protocolViolation m2 ∧
      DataverseError.decodingError ≠ .serverError m2 ∧
      DataverseError.decodingError ≠ .protocolViolation m2 ∧
      DataverseError.serverError m1 ≠ .protocolViolation m2) := by
  refine ⟨rfl, rfl, rfl, ?_, ?_, ?_, ?_⟩
  · simp [create, request, create_handle_response, is_client_error,
      is_server_error]
  · simp [create, request, create_handle_response, is_client_error,
      is_server_error, findUuid, headerValueToStr, noUuidError]
  · simp [retrieve, request, retrieve_handle_response, is_client_error,
      is_server_error]
  · intro m1 m2
    refine ⟨?_, ?_, ?_, ?_, ?_, ?_, ?_, ?_, ?_, ?_, ?_, ?_, ?_, ?_, ?_⟩ <;> simp

/-- C8 witness: token failure surfaces as the authentication error value. -/
theorem C8_witness :
    (create "b/" (.error (.authenticationError "denied")) (fun _ => none)
      ⟨⟨"contacts", 0⟩, some "x"⟩).2 = .error (.authenticationError "denied") :=
  (C8_error_taxonomy "b/" "t" "denied" "bt" ⟨"contacts", 0⟩ "x" []).1

end DataverseClient
